import Mathlib

/-!
Verification of the LightAPI CRUD handler layer (src/handlers.py,
src/database.py) against its specification, via a shallow embedding.

The embedding models:
  - JSON-serializable attribute values (Value);
  - entities as attribute assignments, serialized by as_dict over the
    declared columns of the model (database.py, CustomBase.as_dict);
  - the SQLAlchemy session as the storage of the one table under
    discussion plus an operation log and an open flag;
  - the distinction between transient (freshly constructed) and
    persistent (loaded from the session) instances, which governs what
    add followed by commit does;
  - Python-level failures (TypeError from the declarative constructor on
    an unknown keyword, ValueError from int() on a malformed string,
    AttributeError from calling as_dict on a plain list, KeyError,
    JSONDecodeError) as an Except error channel;
  - each handler of handlers.py as a function from session and request
    to a result paired with the resulting session.
-/

/-- A JSON-serializable attribute value. Lists of strings cover the
static capability descriptor of the OPTIONS handler. -/
inductive Value where
  | vnull : Value
  | vint : Int → Value
  | vstr : String → Value
  | vstrs : List String → Value
deriving DecidableEq, Repr

/-- An entity instance: the attributes set on the Python object, as an
association list from attribute name to value. -/
structure Entity where
  attrs : List (String × Value)
deriving DecidableEq, Repr

/-- A data-model class: its schema is the list of declared column names
(the columns of the underlying table). -/
structure Model where
  columns : List String
deriving DecidableEq, Repr

/-- Association-list lookup, the model of Python dict and attribute
lookup: the value at the first occurrence of the key. -/
def alookup {α : Type} : List (String × α) → String → Option α
  | [], _ => none
  | (k0, v) :: tl, k => if k = k0 then some v else alookup tl k

/-- Python getattr on a mapped column: an unset column attribute reads
as None, hence the vnull default. -/
def getattrV (e : Entity) (k : String) : Value :=
  (alookup e.attrs k).getD Value.vnull

/-- Python setattr: after it, reading k gives v and every other
attribute is unchanged. -/
def Entity.setA (e : Entity) (k : String) (v : Value) : Entity :=
  ⟨(k, v) :: e.attrs.filter (fun kv => kv.1 != k)⟩

/-- CustomBase.as_dict of database.py: the mapping from each column name
to the value of that attribute, in column order. -/
def as_dict (m : Model) (e : Entity) : List (String × Value) :=
  m.columns.map (fun c => (c, getattrV e c))

/-- Operations a handler performs on the session, logged in order. -/
inductive SessionOp where
  | opQuery : SessionOp
  | opAdd : SessionOp
  | opCommit : SessionOp
  | opRefresh : SessionOp
  | opDelete : SessionOp
deriving DecidableEq, Repr

/-- The database session: rows of the table of the model under
discussion, the next auto-generated primary key, whether the session is
open, and the log of operations performed through it. -/
structure Session where
  storage : List Entity
  nextPk : Int
  isOpen : Bool
  ops : List SessionOp
deriving DecidableEq, Repr

/-- SessionLocal() of database.py: a fresh open session over the given
database contents, with an empty operation log. -/
def sessionLocal (storage : List Entity) (nextPk : Int) : Session :=
  ⟨storage, nextPk, true, []⟩

/-- db.close(): the session is no longer open. -/
def Session.close (db : Session) : Session :=
  { db with isOpen := false }

/-- A SQLAlchemy instance as handled by the handlers: transient if
freshly constructed, persistent (with its row index as identity) if
loaded from the session. -/
inductive Item where
  | transient : Entity → Item
  | persistent : Nat → Entity → Item
deriving DecidableEq, Repr

/-- The entity carried by an instance. -/
def Item.entity : Item → Entity
  | .transient e => e
  | .persistent _ e => e

/-- setattr lifted to an instance. -/
def Item.setA : Item → String → Value → Item
  | .transient e, k, v => .transient (e.setA k v)
  | .persistent i e, k, v => .persistent i (e.setA k v)

/-- Decidable equality for Except values, used to evaluate closed
statements about handler outcomes. -/
instance exceptDecEq {e a : Type} [DecidableEq e] [DecidableEq a] :
    DecidableEq (Except e a) := fun x y =>
  match x, y with
  | .ok u, .ok v =>
    if h : u = v then isTrue (by rw [h])
    else isFalse (by intro hc; cases hc; exact h rfl)
  | .ok _, .error _ => isFalse (by intro hc; cases hc)
  | .error _, .ok _ => isFalse (by intro hc; cases hc)
  | .error u, .error v =>
    if h : u = v then isTrue (by rw [h])
    else isFalse (by intro hc; cases hc; exact h rfl)

/-- Python-level errors that escape a handler. -/
inductive PyError where
  | typeError : String → PyError
  | valueError : String → PyError
  | attributeError : String → PyError
  | keyError : String → PyError
  | jsonDecodeError : PyError
deriving DecidableEq, Repr

/-- Bodies of the HTTP responses the handlers build. -/
inductive RespBody where
  | obj : List (String × Value) → RespBody
  | arr : List (List (String × Value)) → RespBody
  | empty : RespBody
deriving DecidableEq, Repr

/-- An HTTP response: status code and JSON body. -/
structure Response where
  status : Nat
  body : RespBody
deriving DecidableEq, Repr

/-- The argument passed to AbstractHandler.json_response: either an
entity (the intended use) or a plain Python list of dicts, as the
collection branch of ReadHandler.handle actually passes. -/
inductive PyObj where
  | entity : Entity → PyObj
  | listdicts : List (List (String × Value)) → PyObj
deriving DecidableEq, Repr

/-- The JSON body of a request: either valid JSON (an object, as a
key-value list) or malformed, in which case request.json() raises. -/
inductive Body where
  | malformed : Body
  | json : List (String × Value) → Body
deriving DecidableEq, Repr

/-- An inbound request: the route match info and the JSON body. -/
structure Request where
  matchInfo : List (String × String)
  body : Body
deriving DecidableEq, Repr

/-- Python int() restricted to ASCII decimal notation: digit run with
single underscores between digits. Accumulates the value left to
right. -/
def parseDigits : List Char → Nat → Option Nat
  | [], acc => some acc
  | c :: cs, acc =>
    if c.isDigit then parseDigits cs (acc * 10 + (c.toNat - 48))
    else if c = '_' then
      match cs with
      | [] => none
      | d :: _ => if d.isDigit then parseDigits cs acc else none
    else none

/-- A nonempty unsigned ASCII decimal literal; the first character must
be a digit (no leading underscore). -/
def parseUInt : List Char → Option Nat
  | [] => none
  | c :: cs => if c.isDigit then parseDigits cs (c.toNat - 48) else none

/-- Surrounding-whitespace strip, over the character list. -/
def pyStrip (cs : List Char) : List Char :=
  ((cs.dropWhile Char.isWhitespace).reverse.dropWhile Char.isWhitespace).reverse

/-- Python int(s) on an ASCII string: strip surrounding whitespace,
optional sign, then a decimal literal; none models a raised
ValueError. -/
def pyInt? (s : String) : Option Int :=
  match pyStrip s.data with
  | '+' :: cs => (parseUInt cs).map Int.ofNat
  | '-' :: cs => (parseUInt cs).map (fun n => -(Int.ofNat n))
  | cs => (parseUInt cs).map Int.ofNat

/-- First row (with its index, counting from i) whose pk column equals
the given id: db.query(model).filter(model.pk == item_id).first(). -/
def findPk : List Entity → Int → Nat → Option (Nat × Entity)
  | [], _, _ => none
  | e :: es, p, i =>
    if getattrV e "pk" = Value.vint p then some (i, e) else findPk es p (i + 1)

/-- AbstractHandler.get_item_by_id: runs the query (logged) and returns
the first matching row as a persistent instance. -/
def get_item_by_id (db : Session) (itemId : Int) : Option Item × Session :=
  let db1 : Session := { db with ops := db.ops ++ [SessionOp.opQuery] }
  match findPk db.storage itemId 0 with
  | some (i, e) => (some (Item.persistent i e), db1)
  | none => (none, db1)

/-- AbstractHandler.add_and_commit_item: db.add(item); db.commit();
db.refresh(item); return item. A transient instance is inserted (the pk
auto-generated at commit when not supplied); a persistent instance has
its row rewritten in place. -/
def add_and_commit_item (db : Session) (item : Item) : Session × Item :=
  let db1 : Session :=
    { db with ops := db.ops ++ [SessionOp.opAdd, SessionOp.opCommit, SessionOp.opRefresh] }
  match item with
  | .transient e =>
    match alookup e.attrs "pk" with
    | some _ =>
      ({ db1 with storage := db1.storage ++ [e] },
       Item.persistent db1.storage.length e)
    | none =>
      let e1 : Entity := e.setA "pk" (Value.vint db1.nextPk)
      ({ db1 with storage := db1.storage ++ [e1], nextPk := db1.nextPk + 1 },
       Item.persistent db1.storage.length e1)
  | .persistent i e =>
    ({ db1 with storage := db1.storage.set i e }, Item.persistent i e)

/-- AbstractHandler.delete_and_commit_item: db.delete(item);
db.commit(). -/
def delete_and_commit_item (db : Session) (item : Item) : Session :=
  let db1 : Session :=
    { db with ops := db.ops ++ [SessionOp.opDelete, SessionOp.opCommit] }
  match item with
  | .persistent i _ => { db1 with storage := db1.storage.eraseIdx i }
  | .transient _ => db1

/-- AbstractHandler.json_response: web.json_response(item.as_dict(),
status). Calling it on a plain list raises AttributeError, since a
Python list has no as_dict method. -/
def json_response (m : Model) (it : PyObj) (status : Nat) : Except PyError Response :=
  match it with
  | .entity e => .ok ⟨status, .obj (as_dict m e)⟩
  | .listdicts _ => .error (.attributeError "list object has no attribute as_dict")

/-- AbstractHandler.json_error_response: {"error": message} with the
given status. -/
def json_error_response (msg : String) (status : Nat) : Except PyError Response :=
  .ok ⟨status, .obj [("error", Value.vstr msg)]⟩

/-- CreateHandler.handle: read the JSON body, construct
self.model(**data) — the declarative constructor raises TypeError when
a keyword is not an attribute of the model — then add, commit, refresh
and answer 201. -/
def createHandle (m : Model) (db : Session) (req : Request) :
    Except PyError Response × Session :=
  match req.body with
  | .malformed => (.error .jsonDecodeError, db)
  | .json data =>
    if data.all (fun kv => m.columns.contains kv.1) then
      let item : Item := .transient ⟨data⟩
      let (db1, item1) := add_and_commit_item db item
      (json_response m (.entity item1.entity) 201, db1)
    else
      (.error (.typeError "invalid keyword argument"), db)

/-- ReadHandler.handle: with no id in the match info, query all rows,
build the list of dicts and pass that list to json_response; with an id,
parse it with int(), look the row up and answer 200 or 404. -/
def readHandle (m : Model) (db : Session) (req : Request) :
    Except PyError Response × Session :=
  match alookup req.matchInfo "id" with
  | none =>
    let db1 : Session := { db with ops := db.ops ++ [SessionOp.opQuery] }
    let response := db1.storage.map (as_dict m)
    (json_response m (.listdicts response) 200, db1)
  | some s =>
    match pyInt? s with
    | none => (.error (.valueError "invalid literal for int"), db)
    | some n =>
      let (found, db1) := get_item_by_id db n
      match found with
      | some item => (json_response m (.entity item.entity) 200, db1)
      | none => (json_error_response "Item not found" 404, db1)

/-- UpdateHandler.handle: parse the id with int(), look the row up (404
when absent), set every attribute supplied in the body, then add,
commit, refresh and answer 200. -/
def updateHandle (m : Model) (db : Session) (req : Request) :
    Except PyError Response × Session :=
  match alookup req.matchInfo "id" with
  | none => (.error (.keyError "id"), db)
  | some s =>
    match pyInt? s with
    | none => (.error (.valueError "invalid literal for int"), db)
    | some n =>
      let (found, db1) := get_item_by_id db n
      match found with
      | none => (json_error_response "Item not found" 404, db1)
      | some item =>
        match req.body with
        | .malformed => (.error .jsonDecodeError, db1)
        | .json data =>
          let item1 := data.foldl (fun it kv => it.setA kv.1 kv.2) item
          let (db2, item2) := add_and_commit_item db1 item1
          (json_response m (.entity item2.entity) 200, db2)

/-- PatchHandler.handle: textually the same steps as
UpdateHandler.handle. -/
def patchHandle (m : Model) (db : Session) (req : Request) :
    Except PyError Response × Session :=
  match alookup req.matchInfo "id" with
  | none => (.error (.keyError "id"), db)
  | some s =>
    match pyInt? s with
    | none => (.error (.valueError "invalid literal for int"), db)
    | some n =>
      let (found, db1) := get_item_by_id db n
      match found with
      | none => (json_error_response "Item not found" 404, db1)
      | some item =>
        match req.body with
        | .malformed => (.error .jsonDecodeError, db1)
        | .json data =>
          let item1 := data.foldl (fun it kv => it.setA kv.1 kv.2) item
          let (db2, item2) := add_and_commit_item db1 item1
          (json_response m (.entity item2.entity) 200, db2)

/-- DeleteHandler.handle: parse the id with int(), look the row up (404
when absent), delete it, commit, and answer 204 with an empty body. -/
def deleteHandle (_m : Model) (db : Session) (req : Request) :
    Except PyError Response × Session :=
  match alookup req.matchInfo "id" with
  | none => (.error (.keyError "id"), db)
  | some s =>
    match pyInt? s with
    | none => (.error (.valueError "invalid literal for int"), db)
    | some n =>
      let (found, db1) := get_item_by_id db n
      match found with
      | none => (json_error_response "Item not found" 404, db1)
      | some item =>
        let db2 := delete_and_commit_item db1 item
        (.ok ⟨204, .empty⟩, db2)

/-- RetrieveAllHandler.handle: query all rows and answer 200 with the
list of dicts, passed directly to web.json_response (no as_dict call on
the list). -/
def retrieveAllHandle (m : Model) (db : Session) (_req : Request) :
    Except PyError Response × Session :=
  let db1 : Session := { db with ops := db.ops ++ [SessionOp.opQuery] }
  let response := db1.storage.map (as_dict m)
  (.ok ⟨200, .arr response⟩, db1)

/-- The static capability descriptor returned by OptionsHandler. -/
def optionsDescriptor : RespBody :=
  .obj
    [("allowed_methods",
      Value.vstrs ["GET", "POST", "PUT", "DELETE", "PATCH", "OPTIONS", "HEAD"]),
     ("allowed_headers", Value.vstrs ["Content-Type", "Authorization"]),
     ("max_age", Value.vint 3600)]

/-- OptionsHandler.handle: web.json_response of the capability
descriptor, default status 200, and no use of the session. -/
def optionsHandle (_m : Model) (db : Session) (_req : Request) :
    Except PyError Response × Session :=
  (.ok ⟨200, optionsDescriptor⟩, db)

/-- HeadHandler.handle: empty body, status 200, no use of the
session. -/
def headHandle (_m : Model) (db : Session) (_req : Request) :
    Except PyError Response × Session :=
  (.ok ⟨200, .empty⟩, db)

/-- AbstractHandler.__call__: open a fresh session with SessionLocal(),
run the wrapped handle, and close the session in a finally block, so the
close happens whether handle returns or raises; the result (value or
raised error) is then passed on unchanged. -/
def callHandler (handle : Session → Request → Except PyError Response × Session)
    (storage : List Entity) (nextPk : Int) (req : Request) :
    Except PyError Response × Session :=
  let out := handle (sessionLocal storage nextPk) req
  (out.1, out.2.close)

/-! ## Concrete instances used by closed theorems and witnesses -/

/-- A model with columns pk and name, as in the test scenarios. -/
def demoModel : Model := ⟨["pk", "name"]⟩

/-- One stored row with pk 1. -/
def entOne : Entity := ⟨[("pk", Value.vint 1), ("name", Value.vstr "a")]⟩

/-- A database session holding the single row entOne, next pk 2. -/
def demoDb : Session := ⟨[entOne], 2, true, []⟩

/-- A collection-route request: no id in the match info. -/
def reqNoId : Request := ⟨[], Body.malformed⟩

/-- A create request whose body names a field absent from the schema. -/
def invalidFieldReq : Request :=
  ⟨[], Body.json [("invalid_field", Value.vstr "Invalid Value")]⟩

/-! ## Helper lemmas on alookup, setA, the setattr fold and findPk -/

theorem alookup_filter_ne {α : Type} (l : List (String × α)) (k k' : String)
    (h : k' ≠ k) :
    alookup (l.filter (fun kv => kv.1 != k)) k' = alookup l k' := by
  induction l with
  | nil => rfl
  | cons kv tl ih =>
    rcases kv with ⟨k0, v0⟩
    by_cases hk : k0 = k
    · subst hk
      have hf : (((k0, v0).1 != k0) = false) := by simp
      have hb : k' ≠ k0 := h
      simp only [List.filter, hf]
      rw [ih]
      simp [alookup, if_neg hb]
    · have hf : (((k0, v0).1 != k) = true) := by simp [hk]
      simp only [List.filter, hf]
      by_cases hk' : k' = k0
      · subst hk'
        simp [alookup]
      · simp [alookup, if_neg hk', ih]

theorem alookup_setA_self (e : Entity) (k : String) (v : Value) :
    alookup (e.setA k v).attrs k = some v := by
  simp [Entity.setA, alookup]

theorem alookup_setA_ne (e : Entity) (k k' : String) (v : Value)
    (h : k' ≠ k) :
    alookup (e.setA k v).attrs k' = alookup e.attrs k' := by
  simp only [Entity.setA, alookup, if_neg h]
  exact alookup_filter_ne e.attrs k k' h

/-- The attribute-setting fold used by the update and patch handlers,
at the entity level. -/
def setAll (e : Entity) (data : List (String × Value)) : Entity :=
  data.foldl (fun en kv => en.setA kv.1 kv.2) e

theorem alookup_setAll_not_mem (data : List (String × Value)) (e : Entity)
    (k : String) (h : k ∉ data.map Prod.fst) :
    alookup (setAll e data).attrs k = alookup e.attrs k := by
  induction data generalizing e with
  | nil => rfl
  | cons kv tl ih =>
    have hne : k ≠ kv.1 := by
      intro hk
      exact h (by simp [hk])
    have htl : k ∉ tl.map Prod.fst := by
      intro hk
      exact h (by simp [hk])
    show alookup (setAll (e.setA kv.1 kv.2) tl).attrs k = alookup e.attrs k
    rw [ih _ htl, alookup_setA_ne _ _ _ _ hne]

theorem alookup_setAll_mem (data : List (String × Value)) (e : Entity)
    (k : String) (v : Value) (hnd : (data.map Prod.fst).Nodup)
    (hmem : (k, v) ∈ data) :
    alookup (setAll e data).attrs k = some v := by
  induction data generalizing e with
  | nil => cases hmem
  | cons kv tl ih =>
    rw [List.map_cons, List.nodup_cons] at hnd
    rcases List.mem_cons.mp hmem with heq | htl
    · subst heq
      show alookup (setAll (e.setA k v) tl).attrs k = some v
      rw [alookup_setAll_not_mem tl _ k hnd.1, alookup_setA_self]
    · show alookup (setAll (e.setA kv.1 kv.2) tl).attrs k = some v
      exact ih _ hnd.2 htl

theorem item_setAll_persistent (data : List (String × Value)) (i : Nat)
    (e : Entity) :
    data.foldl (fun it kv => it.setA kv.1 kv.2) (Item.persistent i e) =
      Item.persistent i (setAll e data) := by
  induction data generalizing e with
  | nil => rfl
  | cons kv tl ih =>
    show tl.foldl (fun it kv => it.setA kv.1 kv.2)
        (Item.persistent i (e.setA kv.1 kv.2)) =
      Item.persistent i (setAll (e.setA kv.1 kv.2) tl)
    exact ih _

theorem findPk_some_lt (xs : List Entity) (p : Int) (i j : Nat) (e : Entity)
    (h : findPk xs p i = some (j, e)) : j < i + xs.length := by
  induction xs generalizing i with
  | nil => cases h
  | cons x tl ih =>
    simp only [findPk] at h
    by_cases hx : getattrV x "pk" = Value.vint p
    · rw [if_pos hx] at h
      cases h
      simp
    · rw [if_neg hx] at h
      have := ih (i + 1) h
      rw [List.length_cons]
      omega

theorem findPk_append_last (xs : List Entity) (e : Entity) (p : Int) (i : Nat)
    (hxs : ∀ x ∈ xs, getattrV x "pk" ≠ Value.vint p)
    (he : getattrV e "pk" = Value.vint p) :
    findPk (xs ++ [e]) p i = some (i + xs.length, e) := by
  induction xs generalizing i with
  | nil => simp [findPk, he]
  | cons x tl ih =>
    have hx : getattrV x "pk" ≠ Value.vint p := hxs x (by simp)
    have htl : ∀ y ∈ tl, getattrV y "pk" ≠ Value.vint p :=
      fun y hy => hxs y (by simp [hy])
    simp only [List.cons_append, findPk, if_neg hx, List.length_cons]
    show findPk (tl ++ [e]) p (i + 1) = some (i + (tl.length + 1), e)
    rw [ih (i + 1) htl,
      show i + 1 + tl.length = i + (tl.length + 1) from by omega]

/-! ## Claim theorems -/

/-- C1: AbstractHandler.__call__ hands the wrapped handle a freshly
opened session (open, empty log), and on every exit path — the handle
returning a response or raising — the session it leaves behind is
closed, while the outcome of the handle is passed through unchanged. -/
theorem abstract_call_opens_and_closes_session
    (handle : Session → Request → Except PyError Response × Session)
    (storage : List Entity) (nextPk : Int) (req : Request) :
    (sessionLocal storage nextPk).isOpen = true ∧
    (sessionLocal storage nextPk).ops = [] ∧
    (callHandler handle storage nextPk req).2.isOpen = false ∧
    (callHandler handle storage nextPk req).1 =
      (handle (sessionLocal storage nextPk) req).1 :=
  ⟨rfl, rfl, rfl, rfl⟩

/-- C2: on a create request naming a field absent from the schema, the
code raises TypeError out of the naive model(**data) construction
instead of returning a 400 response; the session is left untouched. The
repository test test_create_handler_handle_invalid_data expects status
400 here, so the code contradicts its own test. -/
theorem create_unknown_field_raises_typeerror :
    createHandle demoModel demoDb invalidFieldReq =
      (Except.error (PyError.typeError "invalid keyword argument"), demoDb) := by
  rfl

/-- C5: on a collection-route GET (no id in the match info), the code
builds the list of dicts and passes the plain list to json_response,
which calls as_dict on it — a Python list has no such method, so the
handler raises AttributeError instead of returning the claimed 200
response. The repository test test_read_handler_retrieve_all expects
200 here, so the code contradicts its own test. -/
theorem read_collection_branch_raises :
    readHandle demoModel demoDb reqNoId =
      (Except.error (PyError.attributeError "list object has no attribute as_dict"),
       ⟨[entOne], 2, true, [SessionOp.opQuery]⟩) := by
  rfl

/-- C6: RetrieveAllHandler.handle and the collection branch of
ReadHandler.handle do not produce the same response: on the same model,
storage and request, the former answers 200 with the serialized list
while the latter raises AttributeError. -/
theorem retrieve_all_vs_read_collection_differ :
    (retrieveAllHandle demoModel demoDb reqNoId).1 =
      Except.ok ⟨200, RespBody.arr [as_dict demoModel entOne]⟩ ∧
    (readHandle demoModel demoDb reqNoId).1 =
      Except.error (PyError.attributeError "list object has no attribute as_dict") ∧
    (retrieveAllHandle demoModel demoDb reqNoId).1 ≠
      (readHandle demoModel demoDb reqNoId).1 := by
  refine ⟨rfl, rfl, ?_⟩
  decide

/-- C7: UpdateHandler.handle and PatchHandler.handle are the same
function of the model, the session and the request: same outcome
(response or raised error) and same resulting session, on every input;
in particular both answer 404 on an absent primary key and neither
resets fields missing from the body. -/
theorem update_eq_patch (m : Model) (db : Session) (req : Request) :
    updateHandle m db req = patchHandle m db req :=
  rfl

/-- C9: OptionsHandler.handle answers 200 with the fixed capability
descriptor — allowed_methods GET, POST, PUT, DELETE, PATCH, OPTIONS,
HEAD; allowed_headers Content-Type, Authorization; max_age 3600 — and
returns the session exactly as given: no query, add, commit or delete
is logged on it. -/
theorem options_static_descriptor_no_session
    (m : Model) (db : Session) (req : Request) :
    optionsHandle m db req =
      (Except.ok ⟨200, RespBody.obj
        [("allowed_methods",
          Value.vstrs ["GET", "POST", "PUT", "DELETE", "PATCH", "OPTIONS", "HEAD"]),
         ("allowed_headers", Value.vstrs ["Content-Type", "Authorization"]),
         ("max_age", Value.vint 3600)]⟩, db) :=
  rfl

/-- An item-route request whose id 2 matches no row of demoDb. -/
def reqId2 : Request := ⟨[("id", "2")], Body.malformed⟩

/-- C3: for an id present in the route that parses as an integer but
matches no stored row, ReadHandler, UpdateHandler, PatchHandler and
DeleteHandler each answer 404 with exactly the body
{"error": "Item not found"}, and the session comes back with storage
and next pk unchanged, its log extended only by the lookup query — no
add, commit, refresh, delete or setattr happens. -/
theorem absent_id_crud_404_no_mutation
    (m : Model) (db : Session) (req : Request) (s : String) (n : Int)
    (hid : alookup req.matchInfo "id" = some s)
    (hparse : pyInt? s = some n)
    (hmiss : findPk db.storage n 0 = none) :
    readHandle m db req =
      (Except.ok ⟨404, RespBody.obj [("error", Value.vstr "Item not found")]⟩,
       { db with ops := db.ops ++ [SessionOp.opQuery] }) ∧
    updateHandle m db req =
      (Except.ok ⟨404, RespBody.obj [("error", Value.vstr "Item not found")]⟩,
       { db with ops := db.ops ++ [SessionOp.opQuery] }) ∧
    patchHandle m db req =
      (Except.ok ⟨404, RespBody.obj [("error", Value.vstr "Item not found")]⟩,
       { db with ops := db.ops ++ [SessionOp.opQuery] }) ∧
    deleteHandle m db req =
      (Except.ok ⟨404, RespBody.obj [("error", Value.vstr "Item not found")]⟩,
       { db with ops := db.ops ++ [SessionOp.opQuery] }) := by
  refine ⟨?_, ?_, ?_, ?_⟩ <;>
    simp [readHandle, updateHandle, patchHandle, deleteHandle, hid, hparse,
      get_item_by_id, hmiss, json_error_response]

/-- Closed instance of the C3 theorem: GET, PUT, PATCH and DELETE with
id 2 against demoDb (which only stores pk 1) all answer the 404 error
and leave storage untouched. -/
theorem absent_id_crud_404_no_mutation_witness :
    readHandle demoModel demoDb reqId2 =
      (Except.ok ⟨404, RespBody.obj [("error", Value.vstr "Item not found")]⟩,
       { demoDb with ops := demoDb.ops ++ [SessionOp.opQuery] }) ∧
    updateHandle demoModel demoDb reqId2 =
      (Except.ok ⟨404, RespBody.obj [("error", Value.vstr "Item not found")]⟩,
       { demoDb with ops := demoDb.ops ++ [SessionOp.opQuery] }) ∧
    patchHandle demoModel demoDb reqId2 =
      (Except.ok ⟨404, RespBody.obj [("error", Value.vstr "Item not found")]⟩,
       { demoDb with ops := demoDb.ops ++ [SessionOp.opQuery] }) ∧
    deleteHandle demoModel demoDb reqId2 =
      (Except.ok ⟨404, RespBody.obj [("error", Value.vstr "Item not found")]⟩,
       { demoDb with ops := demoDb.ops ++ [SessionOp.opQuery] }) :=
  absent_id_crud_404_no_mutation demoModel demoDb reqId2 "2" 2
    (by decide) (by decide) (by decide)

/-- C10: when the id path segment does not parse as a Python integer
literal, the unguarded int() conversion raises ValueError out of each
item-route handler — GET one, PUT, PATCH and DELETE — so no HTTP
response is produced and the session is returned exactly as given. -/
theorem malformed_id_raises_value_error
    (m : Model) (db : Session) (req : Request) (s : String)
    (hid : alookup req.matchInfo "id" = some s)
    (hbad : pyInt? s = none) :
    readHandle m db req =
      (Except.error (PyError.valueError "invalid literal for int"), db) ∧
    updateHandle m db req =
      (Except.error (PyError.valueError "invalid literal for int"), db) ∧
    patchHandle m db req =
      (Except.error (PyError.valueError "invalid literal for int"), db) ∧
    deleteHandle m db req =
      (Except.error (PyError.valueError "invalid literal for int"), db) := by
  refine ⟨?_, ?_, ?_, ?_⟩ <;>
    simp [readHandle, updateHandle, patchHandle, deleteHandle, hid, hbad]

/-- A request whose id segment abc is not an integer literal. -/
def reqIdAbc : Request := ⟨[("id", "abc")], Body.malformed⟩

/-- Closed instance of the C10 theorem: id segment abc makes GET, PUT,
PATCH and DELETE raise ValueError, with the session unchanged. -/
theorem malformed_id_raises_value_error_witness :
    readHandle demoModel demoDb reqIdAbc =
      (Except.error (PyError.valueError "invalid literal for int"), demoDb) ∧
    updateHandle demoModel demoDb reqIdAbc =
      (Except.error (PyError.valueError "invalid literal for int"), demoDb) ∧
    patchHandle demoModel demoDb reqIdAbc =
      (Except.error (PyError.valueError "invalid literal for int"), demoDb) ∧
    deleteHandle demoModel demoDb reqIdAbc =
      (Except.error (PyError.valueError "invalid literal for int"), demoDb) :=
  malformed_id_raises_value_error demoModel demoDb reqIdAbc "abc"
    (by decide) (by decide)

/-- C8: a PUT or PATCH that finds its row answers 200 with the updated
entity serialized; the row is rewritten in storage at its index with
exactly the fold of setattr over the body; on that persisted entity
every field supplied in the body holds the supplied value and every
field not named in the body is unchanged from before the request. -/
theorem update_patch_persist_and_frame
    (m : Model) (db : Session) (req : Request) (s : String) (n : Int)
    (i : Nat) (e e1 : Entity) (data : List (String × Value))
    (hid : alookup req.matchInfo "id" = some s)
    (hparse : pyInt? s = some n)
    (hfind : findPk db.storage n 0 = some (i, e))
    (hbody : req.body = Body.json data)
    (hnd : (data.map Prod.fst).Nodup)
    (he1 : e1 = setAll e data) :
    (updateHandle m db req).1 = Except.ok ⟨200, RespBody.obj (as_dict m e1)⟩ ∧
    (patchHandle m db req).1 = Except.ok ⟨200, RespBody.obj (as_dict m e1)⟩ ∧
    (updateHandle m db req).2.storage = db.storage.set i e1 ∧
    (patchHandle m db req).2.storage = db.storage.set i e1 ∧
    (updateHandle m db req).2.storage[i]? = some e1 ∧
    (∀ kv ∈ data, alookup e1.attrs kv.1 = some kv.2) ∧
    (∀ k, k ∉ data.map Prod.fst → alookup e1.attrs k = alookup e.attrs k) := by
  subst he1
  have hlt : i < db.storage.length := by
    have := findPk_some_lt db.storage n 0 i e hfind
    omega
  have hup : (updateHandle m db req).1 =
      Except.ok ⟨200, RespBody.obj (as_dict m (setAll e data))⟩ := by
    simp [updateHandle, hid, hparse, get_item_by_id, hfind, hbody,
      item_setAll_persistent, add_and_commit_item, json_response, Item.entity]
  have hust : (updateHandle m db req).2.storage = db.storage.set i (setAll e data) := by
    simp [updateHandle, hid, hparse, get_item_by_id, hfind, hbody,
      item_setAll_persistent, add_and_commit_item]
  refine ⟨hup, hup, hust, hust, ?_, ?_, ?_⟩
  · rw [hust]
    exact List.getElem?_set_eq_of_lt _ hlt
  · exact fun kv hkv => alookup_setAll_mem data e kv.1 kv.2 hnd hkv
  · exact fun k hk => alookup_setAll_not_mem data e k hk

/-- A PUT request on id 1 renaming the stored row. -/
def updateReq : Request := ⟨[("id", "1")], Body.json [("name", Value.vstr "b")]⟩

/-- Closed instance of the C8 theorem: PUT and PATCH of name b on the
row with pk 1 answer 200, rewrite the row in place, persist the
supplied name and leave pk unchanged. -/
theorem update_patch_persist_and_frame_witness :
    (updateHandle demoModel demoDb updateReq).1 =
      Except.ok ⟨200, RespBody.obj
        (as_dict demoModel (setAll entOne [("name", Value.vstr "b")]))⟩ ∧
    (patchHandle demoModel demoDb updateReq).1 =
      Except.ok ⟨200, RespBody.obj
        (as_dict demoModel (setAll entOne [("name", Value.vstr "b")]))⟩ ∧
    (updateHandle demoModel demoDb updateReq).2.storage =
      demoDb.storage.set 0 (setAll entOne [("name", Value.vstr "b")]) ∧
    (patchHandle demoModel demoDb updateReq).2.storage =
      demoDb.storage.set 0 (setAll entOne [("name", Value.vstr "b")]) ∧
    (updateHandle demoModel demoDb updateReq).2.storage[0]? =
      some (setAll entOne [("name", Value.vstr "b")]) ∧
    (∀ kv ∈ [("name", Value.vstr "b")],
      alookup (setAll entOne [("name", Value.vstr "b")]).attrs kv.1 = some kv.2) ∧
    (∀ k, k ∉ [("name", Value.vstr "b")].map Prod.fst →
      alookup (setAll entOne [("name", Value.vstr "b")]).attrs k =
        alookup entOne.attrs k) :=
  update_patch_persist_and_frame demoModel demoDb updateReq "1" 1 0 entOne
    (setAll entOne [("name", Value.vstr "b")]) [("name", Value.vstr "b")]
    (by decide) (by decide) (by decide) (by decide) (by decide) rfl

/-- A create request supplying only the name field. -/
def createReqB : Request := ⟨[], Body.json [("name", Value.vstr "b")]⟩

/-- The entity that creating with body name b against demoDb persists:
generated pk 2 plus the supplied name. -/
def entTwo : Entity := ⟨[("pk", Value.vint 2), ("name", Value.vstr "b")]⟩

/-- The database as seen by a later request, after the create. -/
def dbAfterCreate : Session := sessionLocal [entOne, entTwo] 3

/-- C4: a POST whose fields all lie in the schema and which does not
supply pk adds the entity with the generated primary key, commits, and
answers 201 with its serialized form; a subsequent GET whose id segment
parses to that primary key, against any session over the resulting
storage, answers 200 with the same serialized body. -/
theorem create_then_get_roundtrip
    (m : Model) (db db2 : Session) (data : List (String × Value))
    (reqC reqR : Request) (s : String) (e1 : Entity)
    (hbody : reqC.body = Body.json data)
    (hcols : data.all (fun kv => m.columns.contains kv.1) = true)
    (hnopk : alookup data "pk" = none)
    (hfresh : ∀ x ∈ db.storage, getattrV x "pk" ≠ Value.vint db.nextPk)
    (he1 : e1 = Entity.setA ⟨data⟩ "pk" (Value.vint db.nextPk))
    (hst : db2.storage = (createHandle m db reqC).2.storage)
    (hrid : alookup reqR.matchInfo "id" = some s)
    (hparse : pyInt? s = some db.nextPk) :
    (createHandle m db reqC).1 = Except.ok ⟨201, RespBody.obj (as_dict m e1)⟩ ∧
    getattrV e1 "pk" = Value.vint db.nextPk ∧
    (readHandle m db2 reqR).1 = Except.ok ⟨200, RespBody.obj (as_dict m e1)⟩ := by
  subst he1
  have hpk : getattrV (Entity.setA ⟨data⟩ "pk" (Value.vint db.nextPk)) "pk" =
      Value.vint db.nextPk := by
    simp [getattrV, alookup_setA_self]
  have hcreate : (createHandle m db reqC).1 =
      Except.ok ⟨201, RespBody.obj
        (as_dict m (Entity.setA ⟨data⟩ "pk" (Value.vint db.nextPk)))⟩ := by
    simp only [createHandle, hbody]
    rw [if_pos hcols]
    simp [add_and_commit_item, hnopk, json_response, Item.entity]
  have hstor : (createHandle m db reqC).2.storage =
      db.storage ++ [Entity.setA ⟨data⟩ "pk" (Value.vint db.nextPk)] := by
    simp only [createHandle, hbody]
    rw [if_pos hcols]
    simp [add_and_commit_item, hnopk]
  refine ⟨hcreate, hpk, ?_⟩
  have hfind : findPk db2.storage db.nextPk 0 =
      some (0 + db.storage.length,
        Entity.setA ⟨data⟩ "pk" (Value.vint db.nextPk)) := by
    rw [hst, hstor]
    exact findPk_append_last db.storage _ db.nextPk 0 hfresh hpk
  simp [readHandle, hrid, hparse, get_item_by_id, hfind, json_response,
    Item.entity]

/-- Closed instance of the C4 theorem: creating name b against demoDb
answers 201 with pk 2 and body equal to entTwo serialized, and GET with
id 2 on the resulting storage answers 200 with the same body. -/
theorem create_then_get_roundtrip_witness :
    (createHandle demoModel demoDb createReqB).1 =
      Except.ok ⟨201, RespBody.obj (as_dict demoModel entTwo)⟩ ∧
    getattrV entTwo "pk" = Value.vint demoDb.nextPk ∧
    (readHandle demoModel dbAfterCreate reqId2).1 =
      Except.ok ⟨200, RespBody.obj (as_dict demoModel entTwo)⟩ :=
  create_then_get_roundtrip demoModel demoDb dbAfterCreate
    [("name", Value.vstr "b")] createReqB reqId2 "2" entTwo
    (by decide) (by decide) (by decide) (by decide) (by decide) (by decide)
    (by decide) (by decide)
